import Mathlib

/-! # Verification of the Habana k8s device plugin HLML layer

Shallow embedding of the health-watch, enumeration and synthetic-fleet
logic of the plugin (files `hlml_dummy.go`, `hlml_fake.go` and the
`DeviceManager` / `watchXIDs` code), together with proofs about the
properties the design document states for them.

Conventions of the embedding:
* Go functions returning `(T, error)` become `Except GoError T`.
* Go's `math/rand` draws are explicit parameters (`randomIndex`, `r1`,
  `r2`), so a theorem quantifying over them covers every random outcome.
* The filesystem is a parameter `fs : String → Option (List Char)`
  mapping a path fragment to the file's bytes, `none` meaning the read
  fails.
* A Go runtime panic (integer division by zero) is modelled by `Option`
  with `none` for the panic, since the Go function is not total there.
-/

namespace HabanaPlugin

/-- The Go error values that the translated functions can return
(`errors.New` sentinels of `hlml_dummy.go` / `hlml_fake.go`). -/
inductive GoError where
  | couldNotFindDeviceBySerial
  | couldNotFindDeviceByIndex
  | serialNumberUnavailable
  | uuidUnavailable
  | pciBusIDUnavailable
  | pciIDUnavailable
  | eventTimeout
  | cpuAffinityParse
  deriving DecidableEq, Repr

/-- `HLML_EVENT_CRITICAL_ERR = (1 << 1)`: the critical-error bit returned
by `HlmlCriticalError()` in both the dummy and the fake implementation. -/
def hlmlCriticalError : Nat := 2

/-- `Event` of `hlml_dummy.go` / `hlml_fake.go`: a serial plus a kind
bitmask (`Etype uint64`). -/
structure Event where
  Serial : String
  Etype : Nat
  deriving DecidableEq, Repr

/-- The orchestrator-facing device record produced by
`DeviceManager.Devices` (`pluginapi.Device`); only the fields the watcher
and the claims use: the `ID` (set to the serial) and the optional NUMA
topology annotation. -/
structure PluginDevice where
  ID : String
  topology : Option Nat
  deriving DecidableEq, Repr

/-- A device as returned by `DeviceHandleBySerial`: the fields `watchXIDs`
consults (`UUID()` reads `uuid`, empty string meaning unavailable). -/
structure WDevice where
  serialNumber : String
  uuid : String
  deriving DecidableEq, Repr

/-- One evaluation step of `watchXIDs` (hlml_dummy.go) after `WaitForEvent`
returned the event `e` successfully: the list of devices pushed onto the
`xids` channel for this event.  `lookup` is `DeviceHandleBySerial` of the
active wrapper.  The `uuid, err := dev.UUID(); if err != nil || len(uuid)
== 0` test collapses to `dev.uuid = ""` because `UUID()` errors exactly
when the field is empty. -/
def watchStep (lookup : String → Option WDevice) (devs : List PluginDevice)
    (e : Event) : List PluginDevice :=
  if e.Etype ≠ hlmlCriticalError then []
  else
    match lookup e.Serial with
    | none => devs
    | some dev =>
      if dev.uuid = "" then devs
      else devs.filter (fun d => d.ID == dev.uuid)

/-! ## Generic list helpers -/

theorem dropWhile_eq_self_of {p : Char → Bool} :
    ∀ l : List Char, (∀ c ∈ l, p c = false) → l.dropWhile p = l
  | [], _ => rfl
  | c :: cs, h => by
    have hc : p c = false := h c (List.mem_cons_self c cs)
    simp [List.dropWhile_cons, hc]

/-- `strings.Trim` / `bytes.TrimSpace` of Go: remove leading and trailing
characters satisfying `p`. -/
def goTrim (p : Char → Bool) (cs : List Char) : List Char :=
  ((cs.dropWhile p).reverse.dropWhile p).reverse

theorem goTrim_eq_self {p : Char → Bool} (l : List Char)
    (h : ∀ c ∈ l, p c = false) : goTrim p l = l := by
  unfold goTrim
  rw [dropWhile_eq_self_of l h]
  rw [dropWhile_eq_self_of l.reverse (fun c hc => h c (List.mem_reverse.mp hc))]
  exact List.reverse_reverse l

theorem filter_eq_singleton_of_unique (u : String) (d : PluginDevice) :
    ∀ devs : List PluginDevice, devs.Nodup → d ∈ devs → d.ID = u →
      (∀ d' ∈ devs, d'.ID = u → d' = d) →
      devs.filter (fun x => x.ID == u) = [d]
  | [], _, hmem, _, _ => absurd hmem (List.not_mem_nil d)
  | x :: xs, hnodup, hmem, hid, huniq => by
    have hxnotin : x ∉ xs := (List.nodup_cons.mp hnodup).1
    have hxsnodup : xs.Nodup := (List.nodup_cons.mp hnodup).2
    rcases List.mem_cons.mp hmem with hdx | hdxs
    · subst hdx
      have hfx : (d.ID == u) = true := by simp [hid]
      have hnone : ∀ y ∈ xs, ¬((fun x => x.ID == u) y = true) := by
        intro y hy hyu
        have hyd : y = d := huniq y (List.mem_cons_of_mem _ hy) (by simpa using hyu)
        exact hxnotin (hyd ▸ hy)
      simp only [List.filter_cons, hfx, if_true]
      rw [List.filter_eq_nil_iff.mpr hnone]
    · have hxd : x ≠ d := fun hxeq => hxnotin (hxeq ▸ hdxs)
      have hfx : (x.ID == u) = false := by
        by_contra hfalse
        have hxu : x.ID = u := by
          have := eq_true_of_ne_false hfalse
          simpa using this
        exact hxd (huniq x (List.mem_cons_self x xs) hxu)
      simp only [List.filter_cons, hfx]
      exact filter_eq_singleton_of_unique u d xs hxsnodup hdxs hid
        (fun d' hd' => huniq d' (List.mem_cons_of_mem _ hd'))

/-! ## Decimal parsing: `strconv.ParseInt(s, 10, 8)` and `fmt.Sprintf` -/

/-- The numeric value of a decimal digit character, `none` for any other
character (the per-character failure of Go's decimal scanner). -/
def digitVal (c : Char) : Option Nat :=
  if c.isDigit then some (c.toNat - 48) else none

/-- The digits-only part of Go's decimal scanner: `none` on an empty
string or on any non-digit character, otherwise the base-10 value. -/
def parseDecimalNat (cs : List Char) : Option Nat :=
  match cs with
  | [] => none
  | _ =>
    cs.foldl
      (fun acc c =>
        match acc, digitVal c with
        | some a, some d => some (a * 10 + d)
        | _, _ => none)
      (some 0)

/-- `strconv.ParseInt(s, 10, 8)`: optional sign, decimal digits, and the
signed 8-bit range check `[-128, 127]`; `none` models the non-nil error
(syntax or range). -/
def goParseInt8 (cs : List Char) : Option Int :=
  match cs with
  | [] => none
  | c :: rest =>
    if c = '-' then
      match parseDecimalNat rest with
      | some n => if n ≤ 128 then some (-(n : Int)) else none
      | none => none
    else
      match parseDecimalNat (if c = '+' then rest else cs) with
      | some n => if n ≤ 127 then some (n : Int) else none
      | none => none

/-- The ASCII cutset of Go's `bytes.TrimSpace`. -/
def goIsSpace (c : Char) : Bool :=
  c == ' ' || c == '\t' || c == '\n' || c == '\r' ||
  c == Char.ofNat 11 || c == Char.ofNat 12

/-- `Device.NumaNode` (identical in `hlml_dummy.go` and `hlml_fake.go`)
applied to the bytes of the `numa_node` file: a failed read reports
absent affinity (`ok none`), an unparsable value is an error, a negative
value is again absent affinity, otherwise the node number. -/
def numaNodeFromFile (content : Option (List Char)) : Except GoError (Option Nat) :=
  match content with
  | none => Except.ok none
  | some cs =>
    match goParseInt8 (goTrim goIsSpace cs) with
    | none => Except.error GoError.cpuAffinityParse
    | some node => if node < 0 then Except.ok none else Except.ok (some node.toNat)

/-! ## `DeviceManager.Devices` (the enumeration loop) -/

/-- A device handle of the dummy wrapper (`hlml_dummy.go`): the fields its
accessor methods read, each reporting an error when empty. -/
structure DDevice where
  serialNumber : String
  uuid : String
  pciID : String
  pciBusID : String
  deriving DecidableEq, Repr

def DDevice.pciIDRes (d : DDevice) : Except GoError String :=
  if d.pciID = "" then Except.error GoError.pciIDUnavailable else Except.ok d.pciID

def DDevice.serialRes (d : DDevice) : Except GoError String :=
  if d.serialNumber = "" then Except.error GoError.serialNumberUnavailable
  else Except.ok d.serialNumber

def DDevice.uuidRes (d : DDevice) : Except GoError String :=
  if d.uuid = "" then Except.error GoError.uuidUnavailable else Except.ok d.uuid

def DDevice.pciBusIDRes (d : DDevice) : Except GoError String :=
  if d.pciBusID = "" then Except.error GoError.pciBusIDUnavailable
  else Except.ok d.pciBusID

/-- `strings.ToLower` restricted to ASCII, as applied to PCI bus IDs. -/
def goToLower (s : String) : String := s.map Char.toLower

/-- `Device.NumaNode`: re-derives the bus ID (failing when it is empty)
and then reads `<pciBasePath>/<lowercased bus id>/numa_node` from the
filesystem `fs`. -/
def DDevice.numaNodeRes (fs : String → Option (List Char)) (d : DDevice) :
    Except GoError (Option Nat) :=
  match d.pciBusIDRes with
  | Except.error e => Except.error e
  | Except.ok busID => numaNodeFromFile (fs (goToLower busID))

/-- The per-device body of the `DeviceManager.Devices` loop: resolve PCI
identity, serial and uuid (each aborting on error), discard the direct
`PCIBusID()` error exactly as the source does (`pciBusID, _ := ...`),
then resolve NUMA affinity (which internally needs the bus ID again and
does abort on its error). -/
def deviceStep (fs : String → Option (List Char)) (d : DDevice) :
    Except GoError PluginDevice :=
  match d.pciIDRes with
  | Except.error e => Except.error e
  | Except.ok _ =>
    match d.serialRes with
    | Except.error e => Except.error e
    | Except.ok serial =>
      match d.uuidRes with
      | Except.error e => Except.error e
      | Except.ok _ =>
        match d.numaNodeRes fs with
        | Except.error e => Except.error e
        | Except.ok aff => Except.ok { ID := serial, topology := aff }

/-- Handle lookup followed by the loop body: `DeviceHandleByIndex(i)` and
then the per-device resolution chain. -/
def stepAt (fs : String → Option (List Char))
    (handle : Nat → Except GoError DDevice) (i : Nat) :
    Except GoError PluginDevice :=
  match handle i with
  | Except.error e => Except.error e
  | Except.ok d => deviceStep fs d

/-- The enumeration loop over a list of indices, failing fast on the
first error exactly as the `for i := uint(0); i < NumOfDevices` loop
returns `nil, err` on any step. -/
def devicesAux (fs : String → Option (List Char))
    (handle : Nat → Except GoError DDevice) :
    List Nat → Except GoError (List PluginDevice)
  | [] => Except.ok []
  | i :: rest =>
    match stepAt fs handle i with
    | Except.error e => Except.error e
    | Except.ok r =>
      match devicesAux fs handle rest with
      | Except.error e => Except.error e
      | Except.ok tail => Except.ok (r :: tail)

/-- `DeviceManager.Devices`: iterate the per-device resolution over the
indices `0 .. count-1` reported by `DeviceCount`. -/
def listDevices (fs : String → Option (List Char)) (count : Nat)
    (handle : Nat → Except GoError DDevice) :
    Except GoError (List PluginDevice) :=
  devicesAux fs handle (List.range count)

/-! ## Synthetic fleet topology (`hlml_fake.go`) -/

/-- `devicesPerNode` of `createSymlinkedDirectories` after its guard:
`count / numaNodes`, raised to `1` when the quotient is below one.  Only
meaningful when `numaNodes ≠ 0`; the caller guards that case. -/
def devicesPerNode (count numaNodes : Nat) : Nat :=
  max (count / numaNodes) 1

/-- The NUMA node `createSymlinkedDirectories` assigns to the device with
zero-based index `i` (the source loops `i = 1..count` and computes
`(i-1) / devicesPerNode`). -/
def numaAssignment (count numaNodes i : Nat) : Nat :=
  i / devicesPerNode count numaNodes

/-- The list of NUMA nodes written by `createSymlinkedDirectories`, one
per device in index order.  The source divides `count / numaNodes` with
no zero guard; in Go that is a runtime panic when `numaNodes = 0`, which
the embedding renders as `none` (the function is not total there). -/
def synthNumaAssignments (count numaNodes : Nat) : Option (List Nat) :=
  if numaNodes = 0 then none
  else some ((List.range count).map (numaAssignment count numaNodes))

/-- `fmt.Sprintf("%d", n)` for the unsigned values the backend writes:
the decimal digit characters of `n`. -/
def natDecimal (n : Nat) : List Char := Nat.toDigits 10 n

/-- The bytes `createFilesInDirectory` writes into the `numa_node` file
of the device with zero-based index `i`. -/
def numaFileContent (count numaNodes i : Nat) : List Char :=
  natDecimal (numaAssignment count numaNodes i)

/-- The bytes `createFilesInDirectory` writes into the `device` (or
`vendor`) identity file: the `0x` prefix followed by the 4-hex-digit code
split out of the configured `vendor:device` string. -/
def createdIDFile (code : List Char) : List Char := '0' :: 'x' :: code

/-- `readIDFromFile` applied to the bytes it read: drop the fixed
2-character prefix (`data[2:]`) and trim newline characters from both
ends (`strings.Trim(_, "\n")`). -/
def readIDFromFile (data : List Char) : List Char :=
  goTrim (fun c => c == '\n') (data.drop 2)

/-- A hexadecimal digit character (the characters a 4-hex-digit device
code consists of). -/
def isHexDigit (c : Char) : Bool :=
  c.isDigit || ('a' ≤ c && c ≤ 'f') || ('A' ≤ c && c ≤ 'F')

/-! ## Synthetic event injection (`FakeHlml`) -/

/-- `HLML_EVENT_CRITICAL_ERR` as the `int` event kind stored by
`RegisterEventForDevice` in `registeredEventsByUUID`. -/
def hlmlEventCriticalErr : Int := 2

/-- A simulated device of the fake fleet, as consulted by
`WaitForEvent` (`SerialNumber()` errors on an empty serial). -/
structure FDevice where
  serialNumber : String
  uuid : String
  deriving DecidableEq, Repr

def FDevice.serialRes (d : FDevice) : Except GoError String :=
  if d.serialNumber = "" then Except.error GoError.serialNumberUnavailable
  else Except.ok d.serialNumber

/-- The per-call knobs of `FakeDeviceConfig` that `WaitForEvent` reads. -/
structure FakeDeviceConfig where
  deviceCount : Nat
  numaNodes : Nat
  unhealthyFreq : ℚ
  timeoutFreq : ℚ

/-- `isEventRegistered`: the linear scan of the registered-kind list. -/
def isEventRegistered : List Int → Int → Bool
  | [], _ => false
  | r :: rest, event => if r = event then true else isEventRegistered rest event

/-- `RegisterEventForDevice`: append the kind to the per-serial list in
`registeredEventsByUUID` (a missing key is the empty list, as in Go). -/
def registerEventForDevice (reg : String → List Int) (event : Int)
    (uuid : String) : String → List Int :=
  fun s => if s = uuid then reg s ++ [event] else reg s

/-- The outcome of one `FakeHlml.WaitForEvent` call: the returned value
and how long the call slept (`time.Sleep` happens only on the simulated
timeout path). -/
structure WaitOutcome where
  result : Except GoError Event
  sleptMillis : Nat

instance {ε α : Type} [DecidableEq ε] [DecidableEq α] : DecidableEq (Except ε α) :=
  fun a b =>
  match a, b with
  | Except.error e1, Except.error e2 =>
    if h : e1 = e2 then isTrue (by rw [h]) else isFalse (by simp [h])
  | Except.error _, Except.ok _ => isFalse (by simp)
  | Except.ok _, Except.error _ => isFalse (by simp)
  | Except.ok v1, Except.ok v2 =>
    if h : v1 = v2 then isTrue (by rw [h]) else isFalse (by simp [h])

instance : DecidableEq WaitOutcome := fun a b =>
  if h1 : a.result = b.result then
    if h2 : a.sleptMillis = b.sleptMillis then
      isTrue (by cases a; cases b; simp_all)
    else isFalse (fun hc => h2 (by rw [hc]))
  else isFalse (fun hc => h1 (by rw [hc]))

/-- `FakeHlml.WaitForEvent`: draw a random fleet index; if the drawn
device's serial has the critical bit registered, roll `r1` against the
timeout frequency (sleeping the requested timeout and returning the
timeout error on success) and then `r2` against the unhealthy frequency
(returning a critical event on success); every other path returns a
benign heartbeat event (`Etype = 0`) for the drawn device. -/
def fakeWaitForEvent (config : FakeDeviceConfig) (fleet : Nat → Option FDevice)
    (reg : String → List Int) (randomIndex : Nat) (r1 r2 : ℚ)
    (timeout : Nat) : WaitOutcome :=
  match fleet randomIndex with
  | none => { result := Except.error GoError.couldNotFindDeviceByIndex, sleptMillis := 0 }
  | some device =>
    match device.serialRes with
    | Except.error e => { result := Except.error e, sleptMillis := 0 }
    | Except.ok serialNumber =>
      if isEventRegistered (reg serialNumber) hlmlEventCriticalErr then
        if r1 < config.timeoutFreq then
          { result := Except.error GoError.eventTimeout, sleptMillis := timeout }
        else if r2 < config.unhealthyFreq then
          { result := Except.ok { Serial := serialNumber, Etype := hlmlCriticalError },
            sleptMillis := 0 }
        else
          { result := Except.ok { Serial := serialNumber, Etype := 0 }, sleptMillis := 0 }
      else
        { result := Except.ok { Serial := serialNumber, Etype := 0 }, sleptMillis := 0 }

/-! ## Theorems: health-event watcher (C1, C3) -/

/-- C1: For every critical event whose serial the watcher successfully
resolves via `DeviceHandleBySerial` to a device whose UUID is non-empty,
exactly the one known device whose ID matches that UUID — and no other —
is pushed onto the delivery queue as unhealthy. -/
theorem watchStep_resolution_success_pushes_only_match
    (lookup : String → Option WDevice) (devs : List PluginDevice) (e : Event)
    (dev : WDevice) (d : PluginDevice)
    (hcrit : e.Etype = hlmlCriticalError)
    (hres : lookup e.Serial = some dev)
    (huuid : dev.uuid ≠ "")
    (hnodup : devs.Nodup)
    (hmem : d ∈ devs) (hid : d.ID = dev.uuid)
    (huniq : ∀ d' ∈ devs, d'.ID = dev.uuid → d' = d) :
    watchStep lookup devs e = [d] := by
  unfold watchStep
  rw [hcrit, if_neg (by simp), hres]
  show (if dev.uuid = "" then devs else devs.filter (fun x => x.ID == dev.uuid)) = [d]
  rw [if_neg huuid]
  exact filter_eq_singleton_of_unique dev.uuid d devs hnodup hmem hid huniq

theorem watchStep_resolution_success_witness :
    watchStep
      (fun s => if s = "FK00000001" then
        some { serialNumber := "FK00000001", uuid := "01F0-HL2080F0-99-P73B93-01-02-03" }
      else none)
      [{ ID := "01F0-HL2080F0-99-P73B93-01-02-03", topology := some 0 },
       { ID := "01F0-HL2080F0-99-P53B53-04-05-06", topology := some 1 }]
      { Serial := "FK00000001", Etype := 2 } =
      [{ ID := "01F0-HL2080F0-99-P73B93-01-02-03", topology := some 0 }] :=
  watchStep_resolution_success_pushes_only_match _ _ _
    { serialNumber := "FK00000001", uuid := "01F0-HL2080F0-99-P73B93-01-02-03" } _
    rfl (by decide) (by decide) (by decide) (by decide) rfl (by decide)

/-- C3: Whenever the watcher receives a critical event and
`DeviceHandleBySerial` fails on the event's serial, or the resolved
device's UUID is empty, every device in the known set is pushed onto the
delivery queue as unhealthy. -/
theorem watchStep_resolution_failure_pushes_all
    (lookup : String → Option WDevice) (devs : List PluginDevice) (e : Event)
    (hcrit : e.Etype = hlmlCriticalError)
    (hfail : lookup e.Serial = none ∨
      ∃ dev, lookup e.Serial = some dev ∧ dev.uuid = "") :
    watchStep lookup devs e = devs := by
  unfold watchStep
  rw [hcrit, if_neg (by simp)]
  rcases hfail with h | ⟨dev, h, hu⟩
  · rw [h]
  · rw [h]
    show (if dev.uuid = "" then devs else devs.filter (fun x => x.ID == dev.uuid)) = devs
    rw [if_pos hu]

theorem watchStep_resolution_failure_witness :
    watchStep (fun _ => none)
      [{ ID := "01F0-A", topology := some 0 }, { ID := "01F0-B", topology := some 1 }]
      { Serial := "FK99999999", Etype := 2 } =
      [{ ID := "01F0-A", topology := some 0 }, { ID := "01F0-B", topology := some 1 }] :=
  watchStep_resolution_failure_pushes_all _ _ _ rfl (Or.inl rfl)

/-! ## Theorems: identity-file round trip (C7) -/

theorem hex_not_newline {c : Char} (h : isHexDigit c = true) : (c == '\n') = false := by
  by_contra hfalse
  have hc : c = '\n' := by simpa using eq_true_of_ne_false hfalse
  subst hc
  exact absurd h (by decide)

/-- C7: Every 4-hex-digit device code written by the synthetic backend to
the vendor/device identity files as a `0x`-prefixed string is reproduced
exactly by the identity-reading routine, which strips the fixed
2-character prefix and trims newlines. -/
theorem readIDFromFile_roundtrip (code : List Char)
    (hlen : code.length = 4) (hhex : ∀ c ∈ code, isHexDigit c = true) :
    readIDFromFile (createdIDFile code) = code := by
  unfold readIDFromFile createdIDFile
  rw [show (('0' :: 'x' :: code).drop 2) = code from rfl]
  exact goTrim_eq_self code (fun c hc => hex_not_newline (hhex c hc))

theorem readIDFromFile_roundtrip_witness :
    readIDFromFile (createdIDFile ['1', '0', '2', '0']) = ['1', '0', '2', '0'] :=
  readIDFromFile_roundtrip ['1', '0', '2', '0'] (by decide) (by decide)

/-! ## Theorems: synthetic topology NUMA assignment (C2, C9) -/

/-- C2 (counterexample): with 3 devices and 2 NUMA nodes the synthesis
succeeds but assigns device index 2 the NUMA node 2, which is not in
`[0, 2)` — refuting the claim that every affinity lies in `[0, K)`. -/
theorem synthNumaAssignments_range_counterexample :
    synthNumaAssignments 3 2 = some [0, 1, 2] ∧
      ¬ (∀ a ∈ [0, 1, 2], a < 2) := by decide

/-- C2 (amended): for `K ≥ 1`, synthesizing an `N`-device, `K`-NUMA-node
fleet yields exactly `N` per-device NUMA assignments, and every
assignment lies in `[0, K)` provided `N ≤ K` or `K` divides `N` (the
configurations where the integer bucketing cannot overflow past the last
node); a `K = 0` configuration makes synthesis fail by division by zero
instead of producing devices with absent affinity. -/
theorem synthNumaAssignments_in_range_of_divides (count numaNodes : Nat)
    (hK : 1 ≤ numaNodes) (hshape : count ≤ numaNodes ∨ numaNodes ∣ count) :
    ∃ l, synthNumaAssignments count numaNodes = some l ∧
      l.length = count ∧ ∀ a ∈ l, a < numaNodes := by
  refine ⟨(List.range count).map (numaAssignment count numaNodes), ?_, by simp, ?_⟩
  · unfold synthNumaAssignments
    rw [if_neg (by omega)]
  · intro a ha
    simp only [List.mem_map, List.mem_range] at ha
    obtain ⟨i, hi, rfl⟩ := ha
    unfold numaAssignment devicesPerNode
    rcases hshape with hle | hdvd
    · have hq : count / numaNodes ≤ 1 := by
        calc count / numaNodes ≤ numaNodes / numaNodes := Nat.div_le_div_right hle
        _ = 1 := Nat.div_self (by omega)
      rw [Nat.max_eq_right hq, Nat.div_one]
      omega
    · obtain ⟨m, rfl⟩ := hdvd
      rcases Nat.eq_zero_or_pos m with hm | hm
      · subst hm; simp at hi
      · have hq : numaNodes * m / numaNodes = m :=
          Nat.mul_div_cancel_left m (by omega)
        rw [hq, Nat.max_eq_left hm]
        exact (Nat.div_lt_iff_lt_mul hm).mpr hi

theorem synthNumaAssignments_in_range_witness :
    ∃ l, synthNumaAssignments 8 2 = some l ∧ l.length = 8 ∧ ∀ a ∈ l, a < 2 :=
  synthNumaAssignments_in_range_of_divides 8 2 (by decide) (Or.inr (by decide))

/-- C9: the synthetic backend divides `count / numaNodes` with no zero
guard (a Go runtime panic when `numaNodes = 0`, rendered `none` in the
embedding), so for any device count a configuration with zero NUMA nodes
makes topology synthesis fail, while any `numaNodes ≥ 1` configuration
synthesizes successfully. -/
theorem synthTopology_requires_numaNodes (count numaNodes : Nat)
    (hcount : 1 ≤ count) :
    (numaNodes = 0 → synthNumaAssignments count numaNodes = none) ∧
    (1 ≤ numaNodes → (synthNumaAssignments count numaNodes).isSome = true) := by
  constructor
  · intro h
    subst h
    unfold synthNumaAssignments
    rw [if_pos rfl]
  · intro h
    unfold synthNumaAssignments
    rw [if_neg (by omega)]
    rfl

theorem synthTopology_requires_numaNodes_witness :
    synthNumaAssignments 8 0 = none ∧ (synthNumaAssignments 8 2).isSome = true :=
  ⟨(synthTopology_requires_numaNodes 8 0 (by decide)).1 rfl,
   (synthTopology_requires_numaNodes 8 2 (by decide)).2 (by decide)⟩

/-! ## Theorems: NUMA file write / read-back (C10) -/

theorem digitChar_isDigit : ∀ m < 10, (Nat.digitChar m).isDigit = true := by decide

theorem toDigitsCore_all_digits :
    ∀ (fuel n : Nat) (acc : List Char), (∀ c ∈ acc, c.isDigit = true) →
      ∀ c ∈ Nat.toDigitsCore 10 fuel n acc, c.isDigit = true
  | 0, _, _, hacc => hacc
  | fuel + 1, n, acc, hacc => by
    have hd : (Nat.digitChar (n % 10)).isDigit = true :=
      digitChar_isDigit (n % 10) (Nat.mod_lt n (by omega))
    have hcons : ∀ c ∈ Nat.digitChar (n % 10) :: acc, c.isDigit = true := by
      intro c hc
      rcases List.mem_cons.mp hc with h | h
      · exact h ▸ hd
      · exact hacc c h
    unfold Nat.toDigitsCore
    by_cases hz : n / 10 = 0
    · rw [if_pos hz]
      exact hcons
    · rw [if_neg hz]
      exact toDigitsCore_all_digits fuel (n / 10) _ hcons

theorem natDecimal_all_digits (n : Nat) :
    ∀ c ∈ natDecimal n, c.isDigit = true :=
  toDigitsCore_all_digits (n + 1) n [] (by simp)

theorem toDigitsCore_ne_nil_of_acc :
    ∀ (fuel n : Nat) (acc : List Char), acc ≠ [] →
      Nat.toDigitsCore 10 fuel n acc ≠ []
  | 0, _, _, hacc => hacc
  | fuel + 1, n, acc, hacc => by
    unfold Nat.toDigitsCore
    by_cases hz : n / 10 = 0
    · rw [if_pos hz]
      simp
    · rw [if_neg hz]
      exact toDigitsCore_ne_nil_of_acc fuel (n / 10) _ (by simp)

theorem natDecimal_ne_nil (n : Nat) : natDecimal n ≠ [] := by
  unfold natDecimal Nat.toDigits Nat.toDigitsCore
  by_cases hz : n / 10 = 0
  · rw [if_pos hz]
    simp
  · rw [if_neg hz]
    exact toDigitsCore_ne_nil_of_acc n (n / 10) _ (by simp)

theorem digit_not_space {c : Char} (h : c.isDigit = true) : goIsSpace c = false := by
  by_contra hfalse
  have hs : goIsSpace c = true := eq_true_of_ne_false hfalse
  unfold goIsSpace at hs
  simp only [Bool.or_eq_true, beq_iff_eq] at hs
  rcases hs with ((((h1 | h2) | h3) | h4) | h5) | h6 <;>
    first
    | (subst h1; exact absurd h (by decide))
    | (subst h2; exact absurd h (by decide))
    | (subst h3; exact absurd h (by decide))
    | (subst h4; exact absurd h (by decide))
    | (subst h5; exact absurd h (by decide))
    | (subst h6; exact absurd h (by decide))

theorem goParseInt8_nonneg_of_digits (cs : List Char) (hne : cs ≠ [])
    (hd : ∀ c ∈ cs, c.isDigit = true) :
    ∀ v, goParseInt8 cs = some v → 0 ≤ v := by
  cases cs with
  | nil => exact absurd rfl hne
  | cons c rest =>
    intro v hv
    have hcd : c.isDigit = true := hd c (List.mem_cons_self c rest)
    have hcm : ¬(c = '-') := by
      intro h
      subst h
      exact absurd hcd (by decide)
    simp only [goParseInt8] at hv
    rw [if_neg hcm] at hv
    split at hv
    · split at hv
      · have hvn := Option.some.inj hv
        omega
      · exact absurd hv (by simp)
    · exact absurd hv (by simp)

theorem numa_read_small : ∀ n < 128,
    numaNodeFromFile (some (natDecimal n)) = Except.ok (some n) := by decide

/-- C10 (counterexample): the fleet with 129 devices on 129 NUMA nodes is
successfully synthesized and assigns device index 128 the node value 128,
but reading the written `numa_node` file back through `NumaNode()` fails
in `strconv.ParseInt(_, 10, 8)` (the signed 8-bit range check), so that
synthetic device does not carry a concrete NUMA node. -/
theorem numaNode_read_back_counterexample :
    (synthNumaAssignments 129 129).isSome = true ∧
    numaAssignment 129 129 128 = 128 ∧
    numaNodeFromFile (some (numaFileContent 129 129 128)) =
      Except.error GoError.cpuAffinityParse := by decide

/-- C10 (amended): for every successfully constructed synthetic fleet
(`numaNodes ≥ 1`) the backend writes a non-negative decimal `numa_node`
file for every device, and reading it back through `NumaNode()` never
reports absent affinity; the device carries the concrete assigned node
whenever that value fits the parser's signed 8-bit bound (≤ 127), and
larger values surface as a parse error rather than as absence. -/
theorem numaNode_read_back_never_absent (count numaNodes i : Nat)
    (hK : numaNodes ≠ 0) (hi : i < count) :
    numaNodeFromFile (some (numaFileContent count numaNodes i)) ≠ Except.ok none ∧
    (numaAssignment count numaNodes i ≤ 127 →
      numaNodeFromFile (some (numaFileContent count numaNodes i)) =
        Except.ok (some (numaAssignment count numaNodes i))) := by
  constructor
  · intro hcontra
    unfold numaFileContent at hcontra
    set node := numaAssignment count numaNodes i with hnode
    simp only [numaNodeFromFile] at hcontra
    rw [goTrim_eq_self _
      (fun c hc => digit_not_space (natDecimal_all_digits node c hc))] at hcontra
    split at hcontra
    · exact absurd hcontra (by simp)
    · rename_i v hp
      have hnn : 0 ≤ v :=
        goParseInt8_nonneg_of_digits _ (natDecimal_ne_nil node)
          (natDecimal_all_digits node) v hp
      rw [if_neg (by omega)] at hcontra
      exact absurd hcontra (by simp)
  · intro hsmall
    exact numa_read_small (numaAssignment count numaNodes i) (by omega)

theorem numaNode_read_back_witness :
    numaNodeFromFile (some (numaFileContent 8 2 3)) ≠ Except.ok none ∧
    (numaAssignment 8 2 3 ≤ 127 →
      numaNodeFromFile (some (numaFileContent 8 2 3)) =
        Except.ok (some (numaAssignment 8 2 3))) :=
  numaNode_read_back_never_absent 8 2 3 (by decide) (by decide)

/-! ## Theorems: synthetic event injection (C4, C5, C6) -/

/-- C4: with `unhealthyFrequency = 1.0`, `timeoutFrequency = 0.0` and the
critical-error bit registered for every device's serial, every
`WaitForEvent` call returns a critical event (kind equal to the
critical-error bit) for the drawn registered device — never a benign
heartbeat and never a timeout error.  `r1, r2` are the two uniform
`[0, 1)` draws of the call and `randomIndex` the uniform device draw. -/
theorem fakeWaitForEvent_always_critical
    (config : FakeDeviceConfig) (fleet : Nat → Option FDevice)
    (reg : String → List Int) (randomIndex : Nat) (r1 r2 : ℚ) (timeout : Nat)
    (dev : FDevice)
    (huf : config.unhealthyFreq = 1) (htf : config.timeoutFreq = 0)
    (hreg : ∀ i d, fleet i = some d →
      isEventRegistered (reg d.serialNumber) hlmlEventCriticalErr = true)
    (hserialAll : ∀ i d, fleet i = some d → d.serialNumber ≠ "")
    (hdev : fleet randomIndex = some dev)
    (hr1 : 0 ≤ r1) (hr2 : r2 < 1) :
    fakeWaitForEvent config fleet reg randomIndex r1 r2 timeout =
      { result := Except.ok { Serial := dev.serialNumber, Etype := hlmlCriticalError },
        sleptMillis := 0 } := by
  have hs : dev.serialRes = Except.ok dev.serialNumber := by
    unfold FDevice.serialRes
    rw [if_neg (hserialAll randomIndex dev hdev)]
  simp only [fakeWaitForEvent, hdev, hs, hreg randomIndex dev hdev, htf, huf,
    if_true]
  rw [if_neg (not_lt.mpr hr1), if_pos hr2]

theorem fakeWaitForEvent_always_critical_witness :
    fakeWaitForEvent
      { deviceCount := 1, numaNodes := 1, unhealthyFreq := 1, timeoutFreq := 0 }
      (fun i => match i with
        | 0 => some { serialNumber := "FK00000001", uuid := "01F0-HL2080F0" }
        | _ + 1 => none)
      (registerEventForDevice (fun _ => []) hlmlEventCriticalErr "FK00000001")
      0 0 (1 / 2) 1000 =
      { result := Except.ok { Serial := "FK00000001", Etype := hlmlCriticalError },
        sleptMillis := 0 } :=
  fakeWaitForEvent_always_critical _ _ _ 0 0 (1 / 2) 1000
    { serialNumber := "FK00000001", uuid := "01F0-HL2080F0" } rfl rfl
    (by
      intro i d h
      cases i with
      | zero =>
        cases h
        decide
      | succ m => exact Option.noConfusion h)
    (by
      intro i d h
      cases i with
      | zero =>
        cases h
        decide
      | succ m => exact Option.noConfusion h)
    rfl (by norm_num) (by norm_num)

/-- C5 (counterexample): a synthetic fleet with `timeoutFrequency = 1.0`
but no registered events returns a benign heartbeat from `WaitForEvent`
(with no sleep), not the Timeout error, because the timeout roll only
happens for a drawn device whose serial has the critical bit registered —
refuting the claim that every call with `timeoutFrequency = 1.0` returns
the Timeout error. -/
theorem fakeWaitForEvent_timeout_counterexample :
    fakeWaitForEvent
        { deviceCount := 1, numaNodes := 1, unhealthyFreq := 0, timeoutFreq := 1 }
        (fun i => match i with
          | 0 => some { serialNumber := "FK00000001", uuid := "01F0-HL2080F0" }
          | _ + 1 => none)
        (fun _ => []) 0 0 0 1000 =
      { result := Except.ok { Serial := "FK00000001", Etype := 0 }, sleptMillis := 0 } ∧
    { result := Except.ok { Serial := "FK00000001", Etype := (0 : Nat) },
      sleptMillis := (0 : Nat) : WaitOutcome }.result ≠
      Except.error GoError.eventTimeout := by
  constructor
  · rfl
  · simp

/-- C5 (amended): with `timeoutFrequency = 1.0`, every `WaitForEvent`
call whose drawn device's serial has the critical-error bit registered
returns the distinguished Timeout error (not a zero-value event) and
sleeps for the requested timeout before returning. -/
theorem fakeWaitForEvent_timeout_when_registered
    (config : FakeDeviceConfig) (fleet : Nat → Option FDevice)
    (reg : String → List Int) (randomIndex : Nat) (r1 r2 : ℚ) (timeout : Nat)
    (dev : FDevice)
    (htf : config.timeoutFreq = 1)
    (hdev : fleet randomIndex = some dev)
    (hserial : dev.serialNumber ≠ "")
    (hreg : isEventRegistered (reg dev.serialNumber) hlmlEventCriticalErr = true)
    (hr1 : r1 < 1) :
    fakeWaitForEvent config fleet reg randomIndex r1 r2 timeout =
      { result := Except.error GoError.eventTimeout, sleptMillis := timeout } := by
  have hs : dev.serialRes = Except.ok dev.serialNumber := by
    unfold FDevice.serialRes
    rw [if_neg hserial]
  simp only [fakeWaitForEvent, hdev, hs, hreg, htf, if_true]
  rw [if_pos hr1]

theorem fakeWaitForEvent_timeout_witness :
    fakeWaitForEvent
      { deviceCount := 1, numaNodes := 1, unhealthyFreq := 0, timeoutFreq := 1 }
      (fun i => match i with
        | 0 => some { serialNumber := "FK00000001", uuid := "01F0-HL2080F0" }
        | _ + 1 => none)
      (registerEventForDevice (fun _ => []) hlmlEventCriticalErr "FK00000001")
      0 0 0 1000 =
      { result := Except.error GoError.eventTimeout, sleptMillis := 1000 } :=
  fakeWaitForEvent_timeout_when_registered _ _ _ 0 0 0 1000
    { serialNumber := "FK00000001", uuid := "01F0-HL2080F0" }
    rfl rfl (by decide) (by decide) (by norm_num)

theorem isEventRegistered_iff : ∀ (l : List Int) (k : Int),
    isEventRegistered l k = true ↔ k ∈ l
  | [], k => by simp [isEventRegistered]
  | r :: rest, k => by
    by_cases h : r = k
    · subst h
      simp [isEventRegistered]
    · unfold isEventRegistered
      rw [if_neg h, isEventRegistered_iff rest k]
      constructor
      · exact fun hk => List.mem_cons_of_mem r hk
      · intro hk
        rcases List.mem_cons.mp hk with hk1 | hk2
        · exact absurd hk1.symm h
        · exact hk2

theorem registered_twice_eq (reg : String → List Int) (event : Int)
    (uuid s : String) (k : Int) :
    isEventRegistered
        (registerEventForDevice (registerEventForDevice reg event uuid) event uuid s) k =
      isEventRegistered (registerEventForDevice reg event uuid s) k := by
  unfold registerEventForDevice
  by_cases h : s = uuid
  · simp only [if_pos h]
    apply Bool.eq_iff_iff.mpr
    rw [isEventRegistered_iff, isEventRegistered_iff]
    simp only [List.mem_append, List.mem_singleton]
    tauto
  · simp only [if_neg h]

/-- C6: re-registering the same (kind, serial) pair a second time leaves
the outcome of every single synthetic `WaitForEvent` draw unchanged, so
the repeated registration cannot cause duplicate event delivery. -/
theorem fakeWaitForEvent_register_idempotent
    (config : FakeDeviceConfig) (fleet : Nat → Option FDevice)
    (reg : String → List Int) (event : Int) (uuid : String)
    (randomIndex : Nat) (r1 r2 : ℚ) (timeout : Nat) :
    fakeWaitForEvent config fleet
        (registerEventForDevice (registerEventForDevice reg event uuid) event uuid)
        randomIndex r1 r2 timeout =
      fakeWaitForEvent config fleet (registerEventForDevice reg event uuid)
        randomIndex r1 r2 timeout := by
  unfold fakeWaitForEvent
  cases fleet randomIndex with
  | none => rfl
  | some device =>
    show (match device.serialRes with
      | Except.error e => ({ result := Except.error e, sleptMillis := 0 } : WaitOutcome)
      | Except.ok serialNumber =>
        if isEventRegistered
            (registerEventForDevice (registerEventForDevice reg event uuid) event uuid
              serialNumber) hlmlEventCriticalErr then
          if r1 < config.timeoutFreq then
            { result := Except.error GoError.eventTimeout, sleptMillis := timeout }
          else if r2 < config.unhealthyFreq then
            { result := Except.ok { Serial := serialNumber, Etype := hlmlCriticalError },
              sleptMillis := 0 }
          else
            { result := Except.ok { Serial := serialNumber, Etype := 0 }, sleptMillis := 0 }
        else
          { result := Except.ok { Serial := serialNumber, Etype := 0 }, sleptMillis := 0 }) =
      (match device.serialRes with
      | Except.error e => ({ result := Except.error e, sleptMillis := 0 } : WaitOutcome)
      | Except.ok serialNumber =>
        if isEventRegistered (registerEventForDevice reg event uuid serialNumber)
            hlmlEventCriticalErr then
          if r1 < config.timeoutFreq then
            { result := Except.error GoError.eventTimeout, sleptMillis := timeout }
          else if r2 < config.unhealthyFreq then
            { result := Except.ok { Serial := serialNumber, Etype := hlmlCriticalError },
              sleptMillis := 0 }
          else
            { result := Except.ok { Serial := serialNumber, Etype := 0 }, sleptMillis := 0 }
        else
          { result := Except.ok { Serial := serialNumber, Etype := 0 }, sleptMillis := 0 })
    cases device.serialRes with
    | error e => rfl
    | ok serialNumber =>
      show (if isEventRegistered
          (registerEventForDevice (registerEventForDevice reg event uuid) event uuid
            serialNumber) hlmlEventCriticalErr then _ else _) =
        (if isEventRegistered (registerEventForDevice reg event uuid serialNumber)
            hlmlEventCriticalErr then _ else _)
      rw [registered_twice_eq]

/-! ## Theorems: fail-fast enumeration (C8) -/

theorem devicesAux_error_propagates (fs : String → Option (List Char))
    (handle : Nat → Except GoError DDevice) (i : Nat) (e : GoError)
    (hstep : stepAt fs handle i = Except.error e) :
    ∀ (n s : Nat), s ≤ i → i < s + n →
      (∀ j, s ≤ j → j < i → ∃ r, stepAt fs handle j = Except.ok r) →
      devicesAux fs handle (List.range' s n) = Except.error e := by
  intro n
  induction n with
  | zero =>
    intro s hs hi _
    omega
  | succ m ih =>
    intro s hs hi hok
    rw [List.range'_succ]
    by_cases hsi : s = i
    · subst hsi
      unfold devicesAux
      rw [hstep]
    · have hslt : s < i := lt_of_le_of_ne hs hsi
      obtain ⟨r, hr⟩ := hok s le_rfl hslt
      unfold devicesAux
      rw [hr, ih (s + 1) (by omega) (by omega) (fun j hj1 hj2 => hok j (by omega) hj2)]

/-- C8: during `DeviceManager.Devices`, if the per-device resolution of
device `i` fails at any step (handle lookup, PCI identity, serial, uuid,
bus location — whose error resurfaces through the NUMA lookup — or NUMA
parsing) while all earlier devices resolve, the whole listing aborts and
returns that device's error, producing no partial inventory. -/
theorem listDevices_fail_fast (fs : String → Option (List Char))
    (handle : Nat → Except GoError DDevice) (count i : Nat) (e : GoError)
    (hi : i < count)
    (hprev : ∀ j < i, ∃ r, stepAt fs handle j = Except.ok r)
    (hstep : stepAt fs handle i = Except.error e) :
    listDevices fs count handle = Except.error e := by
  unfold listDevices
  rw [List.range_eq_range']
  exact devicesAux_error_propagates fs handle i e hstep count 0 (Nat.zero_le i)
    (by omega) (fun j _ hj => hprev j hj)

theorem listDevices_fail_fast_witness :
    listDevices (fun _ => none) 2
      (fun j =>
        if j = 0 then
          Except.ok
            { serialNumber := "FK00000001", uuid := "01F0-A",
              pciID := "0x1da31020", pciBusID := "0000:08:00.0" }
        else
          Except.ok
            { serialNumber := "FK00000002", uuid := "01F0-B",
              pciID := "0x1da31020", pciBusID := "" }) =
      Except.error GoError.pciBusIDUnavailable :=
  listDevices_fail_fast _ _ 2 1 _ (by decide)
    (by
      intro j hj
      have hj0 : j = 0 := by omega
      subst hj0
      exact ⟨{ ID := "FK00000001", topology := none }, by decide⟩)
    (by decide)

end HabanaPlugin
